import Mathlib

/-!
Shallow embedding of `src/api.ts` of the yi-api repository: a thin axios
client exposing two operations, `getDivinationInterpretation` and
`addTodoItem`.  JavaScript object literals become `JsonValue.obj` field
lists, the axios instance becomes an explicit read-only configuration
record threaded as module state, the network becomes a function from
requests to outcomes, and `try`/`catch` becomes a match on the outcome.
-/

namespace YiApi

/-- A JSON-like JavaScript value, as produced by the object literals in
`src/api.ts`.  `undefined` represents the JavaScript `undefined` value an
omitted optional parameter takes. -/
inductive JsonValue where
  | str : String → JsonValue
  | bool : Bool → JsonValue
  | arr : List JsonValue → JsonValue
  | obj : List (String × JsonValue) → JsonValue
  | undefined : JsonValue

/-- Whether a value is the JavaScript `undefined`. -/
def JsonValue.isUndef : JsonValue → Bool
  | .undefined => true
  | _ => false

/-- The keys of an object value, in declaration order. -/
def JsonValue.keys : JsonValue → List String
  | .obj fields => fields.map Prod.fst
  | _ => []

/-- Look up a field of an object value (first occurrence). -/
def JsonValue.field (v : JsonValue) (k : String) : Option JsonValue :=
  match v with
  | .obj fields => (fields.find? (fun f => f.1 == k)).map Prod.snd
  | _ => none

/-- The fields of an object that JSON serialization keeps: JavaScript's
`JSON.stringify` (used by axios to build the wire body) drops object
entries whose value is `undefined`. -/
def JsonValue.serializedFields : JsonValue → List (String × JsonValue)
  | .obj fields => fields.filter (fun f => !(f.2.isUndef))
  | _ => []

/-- A broken-down calendar time, standing for the value of the JavaScript
clock (`new Date()`) at the instant a call runs. -/
structure DateTime where
  year : Nat
  month : Nat
  day : Nat
  hour : Nat
  minute : Nat
  second : Nat
  millisecond : Nat

/-- The decimal digit character for `n % 10`. -/
def digitChar (n : Nat) : Char := Char.ofNat (48 + n % 10)

/-- Two-digit zero-padded decimal rendering, as a character list. -/
def pad2d (n : Nat) : List Char := [digitChar (n / 10), digitChar n]

/-- Three-digit zero-padded decimal rendering, as a character list. -/
def pad3d (n : Nat) : List Char := [digitChar (n / 100), digitChar (n / 10), digitChar n]

/-- Four-digit zero-padded decimal rendering, as a character list. -/
def pad4d (n : Nat) : List Char :=
  [digitChar (n / 1000), digitChar (n / 100), digitChar (n / 10), digitChar n]

/-- Modelled from the ECMAScript specification of
`Date.prototype.toISOString` for dates with years 0–9999 (the range the
simplified `YYYY-MM-DDTHH:mm:ss.sssZ` format covers): the source's
`new Date().toISOString()` is runtime-library code, not code of this
repository.  Character codes: 45 `-`, 84 `T`, 58 `:`, 46 `.`, 90 `Z`. -/
def toISOString (d : DateTime) : String :=
  String.mk (pad4d d.year ++ [Char.ofNat 45] ++ pad2d d.month ++ [Char.ofNat 45] ++ pad2d d.day
    ++ [Char.ofNat 84] ++ pad2d d.hour ++ [Char.ofNat 58] ++ pad2d d.minute ++ [Char.ofNat 58]
    ++ pad2d d.second ++ [Char.ofNat 46] ++ pad3d d.millisecond ++ [Char.ofNat 90])

/-- Whether a character is a decimal digit. -/
def isDigitChar (c : Char) : Bool := decide (48 ≤ c.toNat ∧ c.toNat ≤ 57)

/-- Recognizer for the 24-character ISO-8601 UTC timestamp shape
`YYYY-MM-DDTHH:mm:ss.sssZ`. -/
def isISO8601 (s : String) : Bool :=
  match s.data with
  | [y1, y2, y3, y4, p1, mo1, mo2, p2, d1, d2, t1, h1, h2, p3, mi1, mi2, p4, se1, se2, p5,
     ms1, ms2, ms3, z1] =>
      isDigitChar y1 && isDigitChar y2 && isDigitChar y3 && isDigitChar y4 &&
      isDigitChar mo1 && isDigitChar mo2 && isDigitChar d1 && isDigitChar d2 &&
      isDigitChar h1 && isDigitChar h2 && isDigitChar mi1 && isDigitChar mi2 &&
      isDigitChar se1 && isDigitChar se2 &&
      isDigitChar ms1 && isDigitChar ms2 && isDigitChar ms3 &&
      (p1 == Char.ofNat 45) && (p2 == Char.ofNat 45) && (t1 == Char.ofNat 84) &&
      (p3 == Char.ofNat 58) && (p4 == Char.ofNat 58) && (p5 == Char.ofNat 46) &&
      (z1 == Char.ofNat 90)
  | _ => false

/-- Configuration of an axios instance: base URL plus default headers,
mirroring the argument of `axios.create` in `src/api.ts`. -/
structure AxiosConfig where
  baseURL : String
  headers : List (String × String)

/-- The constant `API_BASE_URL = 'http://localhost:3002/api'` (src/api.ts line 4). -/
def API_BASE_URL : String := "http://localhost:3002/api"

/-- The axios instance created at module load
(`axios.create({baseURL, headers})`, src/api.ts lines 7–12). -/
def api : AxiosConfig :=
  { baseURL := API_BASE_URL, headers := [("Content-Type", "application/json")] }

/-- The module-level state of `src/api.ts`: its only module-level binding
is the `api` axios instance. -/
structure ModuleState where
  api : AxiosConfig

/-- The state after module load: `api` holds the created instance. -/
def initState : ModuleState := ⟨api⟩

/-- An HTTP request as issued by `api.post`: axios resolves `path`
against the instance's `baseURL` and attaches the instance's default
headers. -/
structure Request where
  method : String
  baseURL : String
  path : String
  headers : List (String × String)
  body : JsonValue

/-- An axios response; `data` is the decoded JSON body. -/
structure Response where
  status : Nat
  data : JsonValue

/-- The failure value axios rejects with (transport error or
non-success status). -/
structure AxiosError where
  message : String

/-- Outcome of one awaited `api.post` call: either a resolved response or
a rejection carrying the failure object. -/
inductive HttpOutcome where
  | success : Response → HttpOutcome
  | failure : AxiosError → HttpOutcome

/-- The call `api.post(path, body)`: builds a POST request from the
instance configuration. -/
def axiosPost (cfg : AxiosConfig) (path : String) (body : JsonValue) : Request :=
  { method := "POST", baseURL := cfg.baseURL, path := path, headers := cfg.headers,
    body := body }

/-- What one operation call produced: the request it sent, the
`console.error` log entries it emitted, and its returned value or
rethrown failure. -/
structure CallResult where
  request : Request
  log : List String
  result : Except AxiosError JsonValue

/-- The `try { const response = await ...; return response.data }
catch (error) { console.error(msg, error); throw error }` shape shared by
both operations in `src/api.ts`. -/
def mkResult (req : Request) (errMsg : String) : HttpOutcome → CallResult
  | .success response => { request := req, log := [], result := .ok response.data }
  | .failure error => { request := req, log := [errMsg], result := .error error }

/-- The request built by `getDivinationInterpretation`
(src/api.ts lines 21–25): POST `/divination/interpret` with body
`{matter, hexagram, lines}`. -/
def interpRequest (st : ModuleState) (matter hexagram : String) (lines : List String) :
    Request :=
  axiosPost st.api "/divination/interpret"
    (.obj [("matter", .str matter), ("hexagram", .str hexagram),
           ("lines", .arr (lines.map .str))])

/-- The operation `getDivinationInterpretation(matter, hexagram, lines)`
(src/api.ts lines 15–31).  `net` is the network's behaviour during this
call; the pair's second component is the module state after the call. -/
def getDivinationInterpretation (net : Request → HttpOutcome) (st : ModuleState)
    (matter hexagram : String) (lines : List String) : CallResult × ModuleState :=
  (mkResult (interpRequest st matter hexagram lines) "获取占卜解读失败:"
    (net (interpRequest st matter hexagram lines)), st)

/-- The JavaScript value of the optional `hexagram` parameter: an omitted
or explicitly-`undefined` argument is `undefined`. -/
def optStr : Option String → JsonValue
  | some s => .str s
  | none => .undefined

/-- The request built by `addTodoItem` (src/api.ts lines 40–46): POST
`/todos` with body `{title, description, hexagram, completed: false,
createdAt: new Date().toISOString()}`.  `now` is the clock value at call
time. -/
def todoRequest (st : ModuleState) (now : DateTime) (title description : String)
    (hexagram : Option String) : Request :=
  axiosPost st.api "/todos"
    (.obj [("title", .str title), ("description", .str description),
           ("hexagram", optStr hexagram), ("completed", .bool false),
           ("createdAt", .str (toISOString now))])

/-- The operation `addTodoItem(title, description, hexagram)`
(src/api.ts lines 34–52), with the optional third argument passed
explicitly (`none` is JavaScript's `undefined`). -/
def addTodoItem (net : Request → HttpOutcome) (st : ModuleState) (now : DateTime)
    (title description : String) (hexagram : Option String) : CallResult × ModuleState :=
  (mkResult (todoRequest st now title description hexagram) "添加待办事项失败:"
    (net (todoRequest st now title description hexagram)), st)

/-- The two-argument call form `addTodoItem(title, description)`: in
JavaScript the omitted optional parameter binds `hexagram` to
`undefined`. -/
def addTodoItemOmitted (net : Request → HttpOutcome) (st : ModuleState) (now : DateTime)
    (title description : String) : CallResult × ModuleState :=
  addTodoItem net st now title description none

/-- One invocation of either exported operation, for reasoning about two
concurrent calls. -/
inductive Call where
  | interp (matter hexagram : String) (lines : List String)
  | todo (now : DateTime) (title description : String) (hexagram : Option String)

/-- Run one call against the network and the module state. -/
def runCall (net : Request → HttpOutcome) (st : ModuleState) : Call → CallResult × ModuleState
  | .interp matter hexagram lines => getDivinationInterpretation net st matter hexagram lines
  | .todo now title description hexagram => addTodoItem net st now title description hexagram

/-- How a call's returned value is determined by the outcome of its own
request. -/
def outcomeResult : HttpOutcome → Except AxiosError JsonValue
  | .success response => .ok response.data
  | .failure error => .error error

/-- A sample successful backend response (HTTP 200 with JSON body
containing a result field). -/
def okResponse : Response := ⟨200, .obj [("result", .str "ok")]⟩

/-- A network on which every request succeeds with `okResponse`. -/
def successNet : Request → HttpOutcome := fun _ => .success okResponse

/-- A sample failure object. -/
def sampleError : AxiosError := ⟨"Network Error"⟩

/-- A network on which every request fails with `sampleError`. -/
def failNet : Request → HttpOutcome := fun _ => .failure sampleError

/-- A sample clock value. -/
def sampleNow : DateTime := ⟨2026, 10, 11, 12, 30, 45, 123⟩

/-! Helper lemmas about the try/catch shape. -/

theorem mkResult_request (req : Request) (errMsg : String) (o : HttpOutcome) :
    (mkResult req errMsg o).request = req := by
  cases o <;> rfl

theorem mkResult_result (req : Request) (errMsg : String) (o : HttpOutcome) :
    (mkResult req errMsg o).result = outcomeResult o := by
  cases o <;> rfl

theorem runCall_state (net : Request → HttpOutcome) (st : ModuleState) (c : Call) :
    (runCall net st c).2 = st := by
  cases c <;> rfl

theorem isDigitChar_digitChar (n : Nat) : isDigitChar (digitChar n) = true := by
  have h : n % 10 < 10 := Nat.mod_lt _ (by decide)
  have hall : ∀ m, m < 10 → isDigitChar (Char.ofNat (48 + m)) = true := by decide
  simpa [digitChar] using hall (n % 10) h

theorem isISO8601_toISOString (d : DateTime) : isISO8601 (toISOString d) = true := by
  simp [toISOString, isISO8601, pad2d, pad3d, pad4d, isDigitChar_digitChar]

/-- Claim C1: for every input triple (matter, hexagram, lines), including
an empty matter string and an empty lines sequence, the request body sent
by `getDivinationInterpretation` equals exactly the object
`{matter, hexagram, lines}` with the argument values verbatim, no field
added and none dropped. -/
theorem interp_body_exact (net : Request → HttpOutcome) (st : ModuleState)
    (matter hexagram : String) (lines : List String) :
    (getDivinationInterpretation net st matter hexagram lines).1.request.body =
      JsonValue.obj [("matter", .str matter), ("hexagram", .str hexagram),
                     ("lines", .arr (lines.map .str))] := by
  simp [getDivinationInterpretation, mkResult_request, interpRequest, axiosPost]

/-- Claim C2: for every (title, description), a call to `addTodoItem`
without the hexagram argument sends a payload whose `hexagram` field is
the JavaScript `undefined` (and is dropped by JSON serialization, hence
absent on the wire), whose `completed` field is `false`, and whose
`createdAt` field is the ISO-8601 rendering of the clock at call time,
which is a valid ISO-8601 timestamp. -/
theorem todo_omitted_payload (net : Request → HttpOutcome) (st : ModuleState)
    (now : DateTime) (title description : String) :
    ((addTodoItemOmitted net st now title description).1.request.body.field "hexagram"
        = some .undefined)
    ∧ ("hexagram" ∉
        ((addTodoItemOmitted net st now title description).1.request.body.serializedFields).map
          Prod.fst)
    ∧ ((addTodoItemOmitted net st now title description).1.request.body.field "completed"
        = some (.bool false))
    ∧ ((addTodoItemOmitted net st now title description).1.request.body.field "createdAt"
        = some (.str (toISOString now)))
    ∧ isISO8601 (toISOString now) = true := by
  refine ⟨?_, ?_, ?_, ?_, isISO8601_toISOString now⟩ <;>
    simp [addTodoItemOmitted, addTodoItem, mkResult_request, todoRequest, axiosPost,
      JsonValue.field, JsonValue.serializedFields, JsonValue.isUndef, optStr, List.find?]

/-- Claim C3: for every (title, description, hexagram) with the hexagram
provided, the payload sent by `addTodoItem` has `hexagram` equal to the
provided value, `completed = false`, and a client-generated `createdAt`
equal to the ISO-8601 rendering of the clock at call time. -/
theorem todo_hexagram_payload (net : Request → HttpOutcome) (st : ModuleState)
    (now : DateTime) (title description h : String) :
    ((addTodoItem net st now title description (some h)).1.request.body.field "hexagram"
        = some (.str h))
    ∧ ((addTodoItem net st now title description (some h)).1.request.body.field "completed"
        = some (.bool false))
    ∧ ((addTodoItem net st now title description (some h)).1.request.body.field "createdAt"
        = some (.str (toISOString now))) := by
  refine ⟨?_, ?_, ?_⟩ <;>
    simp [addTodoItem, mkResult_request, todoRequest, axiosPost,
      JsonValue.field, optStr, List.find?]

/-- Claim C4: on a successful backend response to its own request, each
of the two operations returns the decoded response body unchanged, with
no transformation, wrapping, or field change by this module. -/
theorem success_returns_body_unchanged (net : Request → HttpOutcome) (st : ModuleState)
    (matter hexagram : String) (lines : List String) (now : DateTime)
    (title description : String) (hx : Option String) (resp1 resp2 : Response)
    (h1 : net (interpRequest st matter hexagram lines) = .success resp1)
    (h2 : net (todoRequest st now title description hx) = .success resp2) :
    (getDivinationInterpretation net st matter hexagram lines).1.result = .ok resp1.data
    ∧ (addTodoItem net st now title description hx).1.result = .ok resp2.data := by
  constructor <;>
    simp [getDivinationInterpretation, addTodoItem, mkResult_result, h1, h2, outcomeResult]

/-- Witness for claim C4: a concrete network returning HTTP 200 with
body containing a result field; both operations return that body. -/
theorem success_returns_body_unchanged_witness :
    (getDivinationInterpretation successNet initState "事" "乾" []).1.result
        = .ok (JsonValue.obj [("result", .str "ok")])
    ∧ (addTodoItem successNet initState sampleNow "t" "d" none).1.result
        = .ok (JsonValue.obj [("result", .str "ok")]) :=
  success_returns_body_unchanged successNet initState "事" "乾" [] sampleNow "t" "d" none
    okResponse okResponse rfl rfl

/-- Claim C5: on any failure of the underlying request, each operation
logs its fixed per-operation diagnostic string and rethrows the identical
failure object: the failure is neither swallowed nor replaced by a
success value. -/
theorem failure_logged_and_rethrown (net : Request → HttpOutcome) (st : ModuleState)
    (matter hexagram : String) (lines : List String) (now : DateTime)
    (title description : String) (hx : Option String) (e1 e2 : AxiosError)
    (h1 : net (interpRequest st matter hexagram lines) = .failure e1)
    (h2 : net (todoRequest st now title description hx) = .failure e2) :
    (getDivinationInterpretation net st matter hexagram lines).1.result = .error e1
    ∧ (getDivinationInterpretation net st matter hexagram lines).1.log = ["获取占卜解读失败:"]
    ∧ (addTodoItem net st now title description hx).1.result = .error e2
    ∧ (addTodoItem net st now title description hx).1.log = ["添加待办事项失败:"] := by
  refine ⟨?_, ?_, ?_, ?_⟩ <;>
    simp [getDivinationInterpretation, addTodoItem, mkResult, h1, h2]

/-- Witness for claim C5: a concrete network failing every request; both
operations log their diagnostic string and rethrow the failure. -/
theorem failure_logged_and_rethrown_witness :
    (getDivinationInterpretation failNet initState "事" "乾" []).1.result = .error sampleError
    ∧ (getDivinationInterpretation failNet initState "事" "乾" []).1.log = ["获取占卜解读失败:"]
    ∧ (addTodoItem failNet initState sampleNow "t" "d" none).1.result = .error sampleError
    ∧ (addTodoItem failNet initState sampleNow "t" "d" none).1.log = ["添加待办事项失败:"] :=
  failure_logged_and_rethrown failNet initState "事" "乾" [] sampleNow "t" "d" none
    sampleError sampleError rfl rfl

/-- Claim C6: every request issued by the module (state as configured at
load) is an HTTP POST against the fixed base URL
`http://localhost:3002/api` with the `Content-Type: application/json`
header and no authentication header; the interpretation operation
targets `/divination/interpret` and the todo operation targets
`/todos`. -/
theorem fixed_http_contract (net : Request → HttpOutcome)
    (matter hexagram : String) (lines : List String) (now : DateTime)
    (title description : String) (hx : Option String) :
    ((getDivinationInterpretation net initState matter hexagram lines).1.request.method
        = "POST")
    ∧ ((getDivinationInterpretation net initState matter hexagram lines).1.request.baseURL
        = "http://localhost:3002/api")
    ∧ ((getDivinationInterpretation net initState matter hexagram lines).1.request.headers
        = [("Content-Type", "application/json")])
    ∧ ((getDivinationInterpretation net initState matter hexagram lines).1.request.path
        = "/divination/interpret")
    ∧ (((getDivinationInterpretation net initState matter hexagram
          lines).1.request.headers.all (fun p => !(p.1 == "Authorization"))) = true)
    ∧ ((addTodoItem net initState now title description hx).1.request.method = "POST")
    ∧ ((addTodoItem net initState now title description hx).1.request.baseURL
        = "http://localhost:3002/api")
    ∧ ((addTodoItem net initState now title description hx).1.request.headers
        = [("Content-Type", "application/json")])
    ∧ ((addTodoItem net initState now title description hx).1.request.path = "/todos")
    ∧ (((addTodoItem net initState now title description hx).1.request.headers.all
          (fun p => !(p.1 == "Authorization"))) = true) := by
  refine ⟨?_, ?_, ?_, ?_, ?_, ?_, ?_, ?_, ?_, ?_⟩ <;>
    simp [getDivinationInterpretation, addTodoItem, mkResult_request, interpRequest,
      todoRequest, axiosPost, initState, api, API_BASE_URL]

/-- Claim C7: the client configuration is read-only state: no invocation
of either operation, succeeding or failing, modifies the module state, so
every later call observes the same configuration. -/
theorem state_readonly (net : Request → HttpOutcome) (st : ModuleState)
    (matter hexagram : String) (lines : List String) (now : DateTime)
    (title description : String) (hx : Option String) :
    (getDivinationInterpretation net st matter hexagram lines).2 = st
    ∧ (addTodoItem net st now title description hx).2 = st :=
  ⟨rfl, rfl⟩

/-- Claim C8: two concurrent calls to either operation do not interfere:
under either interleaving order of the two in-flight requests each call
produces the same outcome, and each call's returned value is the one
determined by the network's response to its own request. -/
theorem concurrent_calls_independent (net : Request → HttpOutcome) (st : ModuleState)
    (c1 c2 : Call) :
    ((runCall net ((runCall net st c2).2) c1).1 = (runCall net st c1).1)
    ∧ ((runCall net ((runCall net st c1).2) c2).1 = (runCall net st c2).1)
    ∧ ((runCall net st c1).1.result = outcomeResult (net ((runCall net st c1).1.request))) := by
  refine ⟨?_, ?_, ?_⟩
  · rw [runCall_state]
  · rw [runCall_state]
  · cases c1 <;>
      simp [runCall, getDivinationInterpretation, addTodoItem, mkResult_request,
        mkResult_result]

/-- Claim C9: for every (title, description, optional hexagram), the
payload object constructed by `addTodoItem` contains exactly the five
keys title, description, hexagram, completed, createdAt in that order and
no other key; in particular no identifier, user, or priority field is
added client-side. -/
theorem todo_payload_keys_exact (net : Request → HttpOutcome) (st : ModuleState)
    (now : DateTime) (title description : String) (hx : Option String) :
    ((addTodoItem net st now title description hx).1.request.body.keys
        = ["title", "description", "hexagram", "completed", "createdAt"])
    ∧ "id" ∉ (addTodoItem net st now title description hx).1.request.body.keys
    ∧ "user" ∉ (addTodoItem net st now title description hx).1.request.body.keys
    ∧ "priority" ∉ (addTodoItem net st now title description hx).1.request.body.keys := by
  refine ⟨?_, ?_, ?_, ?_⟩ <;>
    simp [addTodoItem, mkResult_request, todoRequest, axiosPost, JsonValue.keys]

/-- Claim C10: for every (title, description) and shared call-time
clock value, calling `addTodoItem` with hexagram explicitly `undefined`
builds the same request — same path, same serialized payload — as the
two-argument call with the hexagram argument omitted. -/
theorem todo_undefined_eq_omitted (net : Request → HttpOutcome) (st : ModuleState)
    (now : DateTime) (title description : String) :
    ((addTodoItem net st now title description none).1.request
        = (addTodoItemOmitted net st now title description).1.request)
    ∧ ((addTodoItem net st now title description none).1.request.path
        = (addTodoItemOmitted net st now title description).1.request.path)
    ∧ ((addTodoItem net st now title description none).1.request.body.serializedFields
        = (addTodoItemOmitted net st now title description).1.request.body.serializedFields) :=
  ⟨rfl, rfl, rfl⟩

end YiApi
